import Mathlib

/-!
Verification development for the `deck` battery-protection repository.

The Python sources are shallowly embedded:
* machine words from the I2C transport are `Nat` (with explicit `&&&`,
  `<<<`, `|||`, `>>>` where the source manipulates bits);
* Python floats (voltages, percentages) are embedded as exact rationals `ℚ`,
  the source's decimal literals taken at face value;
* epoch times (`time.time()`) are `Nat` seconds;
* the JSON status file is a record of `Option`-valued fields, `none`
  standing for an absent key, and the file contents seen by a reader is an
  `Option StatusJson` (`none` standing for a missing or unparseable file);
* I/O effects (I2C reads, notification subprocesses, file writes) are passed
  in as explicit parameters: the values the environment returns, or a `Bool`
  success flag for an operation that can raise.
-/

namespace Deck

/-! ## battery-alert.py: layered shutdown thresholds (lines 15-22) -/

def VOLTAGE_CRITICAL : ℚ := 3.2
def VOLTAGE_WARNING : ℚ := 3.3
def PERCENTAGE_CRITICAL : ℚ := 1
def PERCENTAGE_WARNING : ℚ := 5
def SHUTDOWN_DELAY : Nat := 15

/-! ## battery-oneshot.py: recovery configuration (lines 13-15) -/

def RESET_COOLDOWN : Nat := 300
def BAD_READING_THRESHOLD : Nat := 1

/-! ## The published status record (shape of /tmp/battery_status.json) -/

/-- One constructor per distinct reason string produced by `is_bad_reading`
(battery-oneshot.py, lines 144-180).  The source renders these as f-strings;
the interpolated values are carried as constructor arguments instead of
being formatted into text. -/
inductive Reason where
  | ok
  | impossibleVoltage (v : ℚ)
  | highVoltageLowPercentage
  | lowVoltageHighPercentage
  | voltageTooHighForPercentage (v p : ℚ)
  | voltageTooLowForPercentage (v p : ℚ)
  | suddenVoltageChange (d : ℚ)
  | rawPercentageOutOfBounds (r : ℚ)
  | userPercentageOutOfBounds (u : ℚ)
deriving DecidableEq

/-- Whether a reason is the user-percentage out-of-bounds reason
(battery-oneshot.py, lines 176-178). -/
def Reason.isUserOOB : Reason → Bool
  | .userPercentageOutOfBounds _ => true
  | _ => false

/-- The `battery` sub-object of the status file.  `none` = absent key. -/
structure BatteryJson where
  voltage : Option ℚ := none
  percent_user : Option ℚ := none
  percent_raw : Option ℚ := none
  timestamp : Option Nat := none
  error : Option String := none
  voltage_critical : Option Bool := none
  voltage_warning : Option Bool := none
  percentage_critical : Option Bool := none
  percentage_warning : Option Bool := none
deriving DecidableEq

/-- The `reset_info` annotation attached by `read_battery_with_validation`
(battery-oneshot.py, lines 230-245). -/
structure ResetInfo where
  reset_performed : Option Bool := none
  reset_attempted : Option Bool := none
  reset_failed : Option Bool := none
  reason : Reason := Reason.ok
  message : Option String := none
  error : Option String := none
  timestamp : Nat := 0
deriving DecidableEq

/-- The `validation` annotation attached by `read_battery_with_validation`
(battery-oneshot.py, lines 249-254 and 262). -/
structure ValidationJson where
  bad_reading : Option Bool := none
  reason : Option Reason := none
  bad_count : Option Nat := none
  threshold : Option Nat := none
  reading_ok : Option Bool := none
deriving DecidableEq

/-- The top-level status record. -/
structure StatusJson where
  battery : Option BatteryJson := none
  last_updated : Option String := none
  reset_info : Option ResetInfo := none
  validation : Option ValidationJson := none
deriving DecidableEq

/-- The dictionary returned by `LayeredAlertMonitor.get_battery_data`
(keys `voltage`, `percent_user`, `percent_raw`, `timestamp`, `error`). -/
structure BatteryData where
  voltage : ℚ
  percent_user : ℚ
  percent_raw : ℚ
  timestamp : Nat
  error : Option String
deriving DecidableEq

/-- Python truthiness of the `error` value held in the reader's dictionary:
`None` and the empty string are falsy, any other string is truthy. -/
def pyTruthyStr : Option String → Bool
  | none => false
  | some s => !(s == "")

/-- Python's `str.startswith`, computed structurally on the character
lists. -/
def pyStartsWith (s p : String) : Bool := p.data.isPrefixOf s.data

/-! ## battery-alert.py: the layered shutdown monitor -/

/-- `LayeredAlertMonitor.get_battery_data` (battery-alert.py, lines 45-60).
The argument is the parsed status file, `none` when the file is missing or
unparseable (the source's `except (FileNotFoundError, JSONDecodeError,
KeyError): return None`).  Absent keys are defaulted exactly as the source's
`battery.get(key, 0)` / `battery.get('error', None)` do. -/
def get_battery_data (file : Option StatusJson) : Option BatteryData :=
  match file with
  | none => none
  | some data =>
    let battery := data.battery.getD {}
    some
      { voltage := battery.voltage.getD 0
        percent_user := battery.percent_user.getD 0
        percent_raw := battery.percent_raw.getD 0
        timestamp := battery.timestamp.getD 0
        error := battery.error }

/-- `LayeredAlertMonitor.check_shutdown_conditions` (battery-alert.py,
lines 62-96). -/
def check_shutdown_conditions (file : Option StatusJson) : String :=
  match get_battery_data file with
  | none => "OK"
  | some battery =>
    if pyTruthyStr battery.error then "OK"
    else
      let voltage := battery.voltage
      let percentage := battery.percent_user
      if voltage ≤ VOLTAGE_CRITICAL ∧ voltage > 0 then "CRITICAL_VOLTAGE"
      else if percentage ≤ PERCENTAGE_CRITICAL then "CRITICAL_PERCENTAGE"
      else if voltage ≤ VOLTAGE_WARNING ∧ voltage > 0 then "WARNING_VOLTAGE"
      else if percentage ≤ PERCENTAGE_WARNING then "WARNING_PERCENTAGE"
      else "OK"

/-- The mutable fields of `LayeredAlertMonitor` relevant to the poll loop
(battery-alert.py, lines 33-37; `running` is only cleared by a signal and is
modeled by the poll list being finite). -/
structure MonitorState where
  shutdown_initiated : Bool
  last_warning_time : Nat
  warning_shown : Bool
deriving DecidableEq

/-- Externally observable events of `show_critical_shutdown_countdown`.
Each notification carries the success flag of its fire-and-forget delivery
(every `wall`/dialog call in the source is wrapped in `try/except: pass`,
so the flag never influences control flow). -/
inductive Action where
  | wall (ok : Bool)
  | desktop (ok : Bool)
  | tick
  | pause (secs : Nat)
  | shutdownCmd
deriving DecidableEq

/-- The `for remaining in range(SHUTDOWN_DELAY, 0, -1)` countdown loop of
`show_critical_shutdown_countdown` (battery-alert.py, lines 248-262):
a broadcast is attempted when `remaining <= 5 or remaining % 5 == 0`, then
`time.sleep(1)` (one `tick`) happens unconditionally. -/
def countdownLoop (notifyOk : Nat → Bool) : Nat → List Action
  | 0 => []
  | r + 1 =>
    (if r + 1 ≤ 5 ∨ (r + 1) % 5 = 0 then [Action.wall (notifyOk (r + 1))] else []) ++
      Action.tick :: countdownLoop notifyOk r

/-- `LayeredAlertMonitor.show_critical_shutdown_countdown` (battery-alert.py,
lines 217-282) as the list of its externally observable events: the initial
wall/dialog alerts, the countdown loop, the final alerts, `time.sleep(2)`,
and finally `sudo shutdown -h now`.  The `except` handler of the enclosing
`try` also ends in the shutdown command, so the trace ends in
`Action.shutdownCmd` on every path. -/
def show_critical_shutdown_countdown (initWallOk initDeskOk finalOk : Bool)
    (notifyOk : Nat → Bool) : List Action :=
  (Action.wall initWallOk :: Action.desktop initDeskOk ::
      countdownLoop notifyOk SHUTDOWN_DELAY ++
        [Action.wall finalOk, Action.desktop finalOk, Action.pause 2]) ++
    [Action.shutdownCmd]

/-- One iteration of `LayeredAlertMonitor.run`'s polling loop
(battery-alert.py, lines 303-328).  Returns the new monitor state, whether a
critical countdown was started this cycle, and whether the loop `break`s.
`show_low_battery_warning`'s only state effect (lines 185-193) is the
re-notify interval on `last_warning_time`; the `OK` branch clears
`warning_shown`. -/
def runStep (st : MonitorState) (now : Nat) (file : Option StatusJson) :
    MonitorState × Bool × Bool :=
  let condition := check_shutdown_conditions file
  if pyStartsWith condition "CRITICAL" = true ∧ st.shutdown_initiated = false then
    ({ st with shutdown_initiated := true }, true, true)
  else if pyStartsWith condition "WARNING" = true then
    (if now - st.last_warning_time < 300 then st
     else { st with last_warning_time := now }, false, false)
  else if condition = "OK" then
    ({ st with warning_shown := false }, false, false)
  else (st, false, false)

/-- `LayeredAlertMonitor.run`'s polling loop over a finite list of poll
cycles, each supplying the current time and the status-file contents.
Returns the final state and the number of countdowns started. -/
def runLoop : MonitorState → List (Nat × Option StatusJson) → MonitorState × Nat
  | st, [] => (st, 0)
  | st, poll :: rest =>
    if (runStep st poll.1 poll.2).2.2 = true then
      ((runStep st poll.1 poll.2).1,
        if (runStep st poll.1 poll.2).2.1 = true then 1 else 0)
    else
      ((runLoop (runStep st poll.1 poll.2).1 rest).1,
        (if (runStep st poll.1 poll.2).2.1 = true then 1 else 0) +
          (runLoop (runStep st poll.1 poll.2).1 rest).2)

/-- A poll cycle on which the status record is absent/unparseable, or
carries a non-empty `error` field. -/
def unreadableOrError (file : Option StatusJson) : Prop :=
  file = none ∨
    ∃ s b e, file = some s ∧ s.battery = some b ∧ b.error = some e ∧ e ≠ ""

/-! ## battery-oneshot.py: acquisition, validation and recovery -/

/-- Python's `round(x, ndigits)` on exact rationals: round half to even at
the given number of decimal digits.  (The source rounds binary floats; the
embedding rounds the exact rational value.  No claim depends on tie
behaviour.) -/
def pyround (x : ℚ) (ndigits : Nat) : ℚ :=
  let y := x * 10 ^ ndigits
  let f : ℤ := y.floor
  let n : ℤ :=
    if y - f < 1 / 2 then f
    else if y - f > 1 / 2 then f + 1
    else if f % 2 = 0 then f else f + 1
  (n : ℚ) / 10 ^ ndigits

/-- `BatteryMonitor.read_raw_data` (battery-oneshot.py, lines 132-142).
The two arguments are the register words the transport returns for VCELL
(0x02) and SOC (0x04). -/
def read_raw_data (vcell_raw soc_raw : Nat) : ℚ × ℚ × ℚ :=
  let voltage : ℚ :=
    (((vcell_raw &&& 0xFF) <<< 8 ||| (vcell_raw >>> 8) : Nat) : ℚ) * 0.000078125
  let soc_swapped : Nat := (soc_raw &&& 0xFF) <<< 8 ||| (soc_raw >>> 8)
  let raw_percent : ℚ := ((soc_swapped >>> 8 : Nat) : ℚ) + ((soc_swapped &&& 0xFF : Nat) : ℚ) / 256
  let user_percent : ℚ := min 100 (max 0 ((raw_percent - 15) * 1.176470588))
  (voltage, raw_percent, user_percent)

/-- `BatteryMonitor.is_bad_reading` (battery-oneshot.py, lines 144-180).
`last_voltage` is the persisted `self.last_voltage`. -/
def is_bad_reading (last_voltage voltage raw_percent user_percent : ℚ) :
    Bool × Reason :=
  if voltage > 4.3 ∨ voltage < 2.5 then (true, .impossibleVoltage voltage)
  else if voltage > 4.0 ∧ user_percent < 30 then (true, .highVoltageLowPercentage)
  else if voltage < 3.5 ∧ user_percent > 70 then (true, .lowVoltageHighPercentage)
  else if voltage > 3.8 ∧ user_percent < 10 then
    (true, .voltageTooHighForPercentage voltage user_percent)
  else if voltage < 3.3 ∧ user_percent > 50 then
    (true, .voltageTooLowForPercentage voltage user_percent)
  else if last_voltage > 0 ∧ |voltage - last_voltage| > 0.5 then
    (true, .suddenVoltageChange |voltage - last_voltage|)
  else if raw_percent < 0 ∨ raw_percent > 110 then
    (true, .rawPercentageOutOfBounds raw_percent)
  else if user_percent < -5 ∨ user_percent > 105 then
    (true, .userPercentageOutOfBounds user_percent)
  else (false, .ok)

/-- The persisted `BatteryMonitor` state (battery-oneshot.py, lines 105-130):
`last_reset`, `bad_reading_count`, `last_voltage`. -/
structure BMState where
  last_reset : Nat
  bad_reading_count : Nat
  last_voltage : ℚ
deriving DecidableEq

/-- `BatteryMonitor.reset_max_chip` (battery-oneshot.py, lines 182-206).
`now` is `time.time()`; `writeOk` is whether the I2C reset-command write
succeeds (the source's `try`).  Returns the `(success, message)` pair and
the updated state: `last_reset` and `bad_reading_count` change only on a
confirmed successful write. -/
def reset_max_chip (now : Nat) (writeOk : Bool) (st : BMState) :
    (Bool × String) × BMState :=
  if now - st.last_reset < RESET_COOLDOWN then
    ((false, "Reset cooldown active"), st)
  else if writeOk = true then
    ((true, "MAX chip reset successful"),
      { st with last_reset := now, bad_reading_count := 0 })
  else ((false, "Reset failed"), st)

/-- `BatteryMonitor.create_status` (battery-oneshot.py, lines 274-298).
The source inserts the condition-flag keys through an `if/elif` chain; the
embedding flattens that chain into one conditional per key. -/
def create_status (now : Nat) (nowStr : String)
    (voltage raw_percent user_percent : ℚ) : StatusJson :=
  { battery := some
      { voltage := some (pyround voltage 3)
        percent_user := some (pyround user_percent 1)
        percent_raw := some (pyround raw_percent 1)
        timestamp := some now
        voltage_critical := if voltage ≤ 3.2 ∧ voltage > 0 then some true else none
        voltage_warning :=
          if ¬(voltage ≤ 3.2 ∧ voltage > 0) ∧ voltage ≤ 3.5 ∧ voltage > 0 then some true
          else none
        percentage_critical := if user_percent ≤ 2 then some true else none
        percentage_warning :=
          if ¬(user_percent ≤ 2) ∧ user_percent ≤ 5 then some true else none }
    last_updated := some nowStr }

/-- `BatteryMonitor.create_error_status` (battery-oneshot.py, lines 300-311). -/
def create_error_status (now : Nat) (nowStr error_msg : String) : StatusJson :=
  { battery := some
      { voltage := some 0
        percent_user := some 0
        percent_raw := some 0
        timestamp := some now
        error := some error_msg }
    last_updated := some nowStr }

/-- `BatteryMonitor.write_status` (battery-oneshot.py, lines 313-321), on
the success path: `json.dump` of the record produces a file that parses back
to exactly that record. -/
def write_status (status : StatusJson) : Option StatusJson :=
  some status

/-- `BatteryMonitor.read_battery_with_validation` (battery-oneshot.py,
lines 208-268) on the path where the I2C reads succeed.  `read1` is the
triple returned by the first `read_raw_data` call, `read2` the one returned
by the re-read after a successful reset, `writeOk` the success of the reset
command write.  Returns the status record and the updated persisted state
(`self.last_voltage = voltage; self.save_state()`). -/
def read_battery_with_validation (now : Nat) (nowStr : String)
    (read1 read2 : ℚ × ℚ × ℚ) (writeOk : Bool) (st : BMState) :
    StatusJson × BMState :=
  let voltage := read1.1
  let raw_percent := read1.2.1
  let user_percent := read1.2.2
  let verdict := is_bad_reading st.last_voltage voltage raw_percent user_percent
  if verdict.1 = true then
    let count := st.bad_reading_count + 1
    if BAD_READING_THRESHOLD ≤ count then
      let r := reset_max_chip now writeOk { st with bad_reading_count := count }
      if r.1.1 = true then
        let status :=
          { create_status now nowStr read2.1 read2.2.1 read2.2.2 with
            reset_info := some
              { reset_performed := some true, reason := verdict.2,
                message := some r.1.2, timestamp := now } }
        (status, { r.2 with last_voltage := read2.1 })
      else
        let status :=
          { create_status now nowStr voltage raw_percent user_percent with
            reset_info := some
              { reset_attempted := some true, reset_failed := some true,
                reason := verdict.2, error := some r.1.2, timestamp := now } }
        (status, { r.2 with last_voltage := voltage })
    else
      let status :=
        { create_status now nowStr voltage raw_percent user_percent with
          validation := some
            { bad_reading := some true, reason := some verdict.2,
              bad_count := some count, threshold := some BAD_READING_THRESHOLD } }
      (status, { st with bad_reading_count := count, last_voltage := voltage })
  else
    let status :=
      { create_status now nowStr voltage raw_percent user_percent with
        validation := some { reading_ok := some true } }
    (status, { st with bad_reading_count := 0, last_voltage := voltage })

/-- A trace of `reset_max_chip` invocations: each call supplies its
`time.time()` value and whether the reset-command write would succeed.
Returns the final state and the times of the successful resets. -/
def resetTrace : BMState → List (Nat × Bool) → BMState × List Nat
  | st, [] => (st, [])
  | st, call :: rest =>
    ((resetTrace (reset_max_chip call.1 call.2 st).2 rest).1,
      if (reset_max_chip call.1 call.2 st).1.1 = true then
        call.1 :: (resetTrace (reset_max_chip call.1 call.2 st).2 rest).2
      else (resetTrace (reset_max_chip call.1 call.2 st).2 rest).2)

/-- `⌈a / b⌉` on naturals. -/
def ceilDiv (a b : Nat) : Nat := (a + b - 1) / b

/-! ## Recovery controller with charging-window gating

Modelled from the spec: the charging-aware recovery policy of §4.4 and the
charging-window gate of §4.5 are not implemented by any file under `src/`
(the tray widget reads an optional `charging` flag and invokes a
`battery_monitor.py` that is not in `src/`); only the window-free variant
`battery-oneshot.py` is.  The definitions below follow the spec's words. -/

/-- Modelled from the spec: `RecoveryState` as used by the §4.4
`handleReading` policy (`lastResetAt`, `badReadingCount`). -/
structure SpecRecoveryState where
  badReadingCount : Nat
  lastResetAt : Nat
deriving DecidableEq

/-- Modelled from the spec (§4.4): `handleReading`.  A good reading zeroes
the count; a bad reading inside a charging window is ignored (count neither
incremented nor reset, no recovery); a bad reading outside a window
increments the count and, at the threshold with the cooldown expired,
issues a chip reset.  Returns the updated state and whether a reset was
issued. -/
def handleReading (isBad inWindow : Bool) (now : Nat) (st : SpecRecoveryState) :
    SpecRecoveryState × Bool :=
  if isBad = false then ({ st with badReadingCount := 0 }, false)
  else if inWindow = true then (st, false)
  else
    let count := st.badReadingCount + 1
    if BAD_READING_THRESHOLD ≤ count ∧ RESET_COOLDOWN ≤ now - st.lastResetAt then
      ({ badReadingCount := 0, lastResetAt := now }, true)
    else ({ st with badReadingCount := count }, false)

/-- Modelled from the spec: a run of the recovery controller over an input
sequence of `(isBad, inWindow, now)` observations.  Returns the final state
and the input steps at which a reset was issued. -/
def runRecovery : SpecRecoveryState → List (Bool × Bool × Nat) →
    SpecRecoveryState × List (Bool × Bool × Nat)
  | st, [] => (st, [])
  | st, step :: rest =>
    ((runRecovery (handleReading step.1 step.2.1 step.2.2 st).1 rest).1,
      if (handleReading step.1 step.2.1 step.2.2 st).2 = true then
        step :: (runRecovery (handleReading step.1 step.2.1 step.2.2 st).1 rest).2
      else (runRecovery (handleReading step.1 step.2.1 step.2.2 st).1 rest).2)

/-! ## Concrete records used by witnesses and counterexamples -/

/-- A status record whose `battery` object has a safe voltage but lacks the
`percent_user` key (and every other optional key). -/
def noPercentRecord : StatusJson :=
  { battery := some { voltage := some 3.8 } }

/-- A valid status record with a critically low voltage. -/
def lowVoltageRecord : StatusJson :=
  { battery := some { voltage := some 3, percent_user := some 50 } }

/-- A status record carrying a non-empty error string, as written by
`create_error_status`. -/
def errorRecord : StatusJson :=
  create_error_status 100 "00:01:40" "I2C error: remote I/O error"

/-! ## Helper lemmas -/

lemma check_eq_of_read (file : Option StatusJson) (bd : BatteryData)
    (hread : get_battery_data file = some bd) (herr : pyTruthyStr bd.error = false) :
    check_shutdown_conditions file =
      (if bd.voltage ≤ VOLTAGE_CRITICAL ∧ bd.voltage > 0 then "CRITICAL_VOLTAGE"
       else if bd.percent_user ≤ PERCENTAGE_CRITICAL then "CRITICAL_PERCENTAGE"
       else if bd.voltage ≤ VOLTAGE_WARNING ∧ bd.voltage > 0 then "WARNING_VOLTAGE"
       else if bd.percent_user ≤ PERCENTAGE_WARNING then "WARNING_PERCENTAGE"
       else "OK") := by
  unfold check_shutdown_conditions
  rw [hread]
  simp [herr]

lemma check_ok_of_unreadableOrError (file : Option StatusJson)
    (h : unreadableOrError file) : check_shutdown_conditions file = "OK" := by
  rcases h with rfl | ⟨s, b, e, rfl, hb, he, hne⟩
  · rfl
  · simp [check_shutdown_conditions, get_battery_data, pyTruthyStr, hb, he, hne]

lemma runStep_ok_of (st : MonitorState) (now : Nat) (file : Option StatusJson)
    (h : check_shutdown_conditions file = "OK") :
    runStep st now file = ({ st with warning_shown := false }, false, false) := by
  unfold runStep
  rw [h]
  rw [if_neg (fun hc => absurd hc.1 (by decide)), if_neg (by decide), if_pos rfl]

/-! ## Claims C1-C3 -/

/-- Claim C1: `check_shutdown_conditions` evaluates the layered thresholds in
fixed priority order.  For a readable, error-free status record: a voltage
in `(0, VOLTAGE_CRITICAL]` yields `CRITICAL_VOLTAGE` regardless of
`percent_user`; a safe voltage with `percent_user ≤ PERCENTAGE_CRITICAL`
yields `CRITICAL_PERCENTAGE`; and whenever a critical condition holds (even
if a warning condition holds as well) the verdict is critical. -/
theorem c1_threshold_priority (file : Option StatusJson) (bd : BatteryData)
    (hread : get_battery_data file = some bd) (herr : pyTruthyStr bd.error = false) :
    ((0 < bd.voltage ∧ bd.voltage ≤ VOLTAGE_CRITICAL) →
        check_shutdown_conditions file = "CRITICAL_VOLTAGE") ∧
      (VOLTAGE_CRITICAL < bd.voltage → bd.percent_user ≤ PERCENTAGE_CRITICAL →
        check_shutdown_conditions file = "CRITICAL_PERCENTAGE") ∧
      (((0 < bd.voltage ∧ bd.voltage ≤ VOLTAGE_CRITICAL) ∨
          bd.percent_user ≤ PERCENTAGE_CRITICAL) →
        pyStartsWith (check_shutdown_conditions file) "CRITICAL" = true) := by
  rw [check_eq_of_read file bd hread herr]
  refine ⟨?_, ?_, ?_⟩
  · rintro ⟨h1, h2⟩
    rw [if_pos ⟨h2, h1⟩]
  · intro hv hp
    rw [if_neg (fun hc => absurd hc.1 (not_le.mpr hv)), if_pos hp]
  · rintro (⟨h1, h2⟩ | hp)
    · rw [if_pos ⟨h2, h1⟩]; decide
    · by_cases hv : bd.voltage ≤ VOLTAGE_CRITICAL ∧ bd.voltage > 0
      · rw [if_pos hv]; decide
      · rw [if_neg hv, if_pos hp]; decide

/-- Witness for C1: a record at 3.0 V and 50 % user percent yields
`CRITICAL_VOLTAGE`. -/
theorem c1_threshold_priority_witness :
    check_shutdown_conditions (some lowVoltageRecord) = "CRITICAL_VOLTAGE" :=
  (c1_threshold_priority (some lowVoltageRecord)
      { voltage := 3, percent_user := 50, percent_raw := 0, timestamp := 0, error := none }
      (by rfl) (by rfl)).1 (by norm_num [VOLTAGE_CRITICAL])

/-- Claim C2: whenever the status record is absent/unparseable or carries a
non-empty error string, `check_shutdown_conditions` returns `OK`, and a run
of the monitor loop over such poll cycles never starts a shutdown
countdown. -/
theorem c2_fail_open_on_unreadable :
    check_shutdown_conditions none = "OK" ∧
      (∀ (s : StatusJson) (b : BatteryJson) (e : String),
        s.battery = some b → b.error = some e → e ≠ "" →
        check_shutdown_conditions (some s) = "OK") ∧
      (∀ (st : MonitorState) (polls : List (Nat × Option StatusJson)),
        (∀ p ∈ polls, unreadableOrError p.2) → (runLoop st polls).2 = 0) := by
  refine ⟨rfl, ?_, ?_⟩
  · intro s b e hb he hne
    exact check_ok_of_unreadableOrError (some s) (Or.inr ⟨s, b, e, rfl, hb, he, hne⟩)
  · intro st polls h
    induction polls generalizing st with
    | nil => rfl
    | cons p rest ih =>
      have hcheck : check_shutdown_conditions p.2 = "OK" :=
        check_ok_of_unreadableOrError p.2 (h p (List.mem_cons_self p rest))
      unfold runLoop
      rw [runStep_ok_of st p.1 p.2 hcheck]
      simpa using ih { st with warning_shown := false }
        (fun q hq => h q (List.mem_cons_of_mem p hq))

/-- Witness for C2: a poll trace consisting of one unreadable record and one
error-carrying record yields zero countdowns. -/
theorem c2_fail_open_on_unreadable_witness :
    (runLoop { shutdown_initiated := false, last_warning_time := 0, warning_shown := false }
        [(0, none), (10, some errorRecord)]).2 = 0 :=
  c2_fail_open_on_unreadable.2.2
    { shutdown_initiated := false, last_warning_time := 0, warning_shown := false }
    [(0, none), (10, some errorRecord)]
    (by
      intro p hp
      fin_cases hp
      · exact Or.inl rfl
      · exact Or.inr
          ⟨errorRecord, _, "I2C error: remote I/O error", rfl, rfl, rfl, by decide⟩)

/-- Counterexample for C3: a status record whose battery object has a safe
voltage (3.8 V) but lacks the `percent_user` key is read back with
`percent_user = 0` (not "unknown") and by itself yields the critical
verdict `CRITICAL_PERCENTAGE`. -/
theorem c3_counterexample :
    check_shutdown_conditions (some noPercentRecord) = "CRITICAL_PERCENTAGE" ∧
      get_battery_data (some noPercentRecord) =
        some { voltage := 3.8, percent_user := 0, percent_raw := 0,
               timestamp := 0, error := none } := by
  constructor
  · norm_num [check_shutdown_conditions, get_battery_data, noPercentRecord,
      pyTruthyStr, VOLTAGE_CRITICAL, PERCENTAGE_CRITICAL]
  · rfl

/-- Claim C3 (amended): `get_battery_data` substitutes `0` (not "unknown")
for every absent optional battery field; in particular a record whose
battery object lacks `percent_user`, has no error, and whose voltage does
not itself trip the critical-voltage check is reported as
`CRITICAL_PERCENTAGE` because the substituted `0` is below
`PERCENTAGE_CRITICAL`. -/
theorem c3_absent_fields_default_to_zero (s : StatusJson) (b : BatteryJson)
    (hb : s.battery = some b) :
    get_battery_data (some s) =
      some { voltage := b.voltage.getD 0, percent_user := b.percent_user.getD 0,
             percent_raw := b.percent_raw.getD 0, timestamp := b.timestamp.getD 0,
             error := b.error } ∧
      (b.percent_user = none → pyTruthyStr b.error = false →
        ¬(0 < b.voltage.getD 0 ∧ b.voltage.getD 0 ≤ VOLTAGE_CRITICAL) →
        check_shutdown_conditions (some s) = "CRITICAL_PERCENTAGE") := by
  have hget : get_battery_data (some s) =
      some { voltage := b.voltage.getD 0, percent_user := b.percent_user.getD 0,
             percent_raw := b.percent_raw.getD 0, timestamp := b.timestamp.getD 0,
             error := b.error } := by
    simp [get_battery_data, hb]
  refine ⟨hget, fun hp herr hv => ?_⟩
  rw [check_eq_of_read (some s) _ hget herr]
  rw [if_neg (fun hc => hv ⟨hc.2, hc.1⟩)]
  rw [if_pos (by rw [hp]; norm_num [PERCENTAGE_CRITICAL])]

/-- Witness for the amended C3, at the concrete record missing
`percent_user`. -/
theorem c3_absent_fields_default_to_zero_witness :
    check_shutdown_conditions (some noPercentRecord) = "CRITICAL_PERCENTAGE" :=
  (c3_absent_fields_default_to_zero noPercentRecord _ rfl).2 rfl rfl
    (by norm_num [VOLTAGE_CRITICAL])

/-! ## Claim C4: single-shot countdown -/

lemma countdownLoop_count_tick (notifyOk : Nat → Bool) :
    ∀ n, (countdownLoop notifyOk n).count Action.tick = n := by
  intro n
  induction n with
  | zero => rfl
  | succ r ih =>
    unfold countdownLoop
    rcases Decidable.em (r + 1 ≤ 5 ∨ (r + 1) % 5 = 0) with h | h
    · rw [if_pos h]
      simp [List.count_append, List.count_cons, ih]
    · rw [if_neg h]
      simp [List.count_append, List.count_cons, ih]

lemma runStep_shape (st : MonitorState) (now : Nat) (file : Option StatusJson) :
    ((runStep st now file).2 = (true, true) ∧
        (runStep st now file).1.shutdown_initiated = true ∧
        st.shutdown_initiated = false) ∨
      ((runStep st now file).2 = (false, false) ∧
        (runStep st now file).1.shutdown_initiated = st.shutdown_initiated) := by
  unfold runStep
  by_cases hc : pyStartsWith (check_shutdown_conditions file) "CRITICAL" = true ∧
      st.shutdown_initiated = false
  · rw [if_pos hc]
    exact Or.inl ⟨rfl, rfl, hc.2⟩
  · rw [if_neg hc]
    by_cases hw : pyStartsWith (check_shutdown_conditions file) "WARNING" = true
    · rw [if_pos hw]
      by_cases ht : now - st.last_warning_time < 300
      · rw [if_pos ht]
        exact Or.inr ⟨rfl, rfl⟩
      · rw [if_neg ht]
        exact Or.inr ⟨rfl, rfl⟩
    · rw [if_neg hw]
      by_cases ho : check_shutdown_conditions file = "OK"
      · rw [if_pos ho]
        exact Or.inr ⟨rfl, rfl⟩
      · rw [if_neg ho]
        exact Or.inr ⟨rfl, rfl⟩

lemma runLoop_le_one : ∀ (polls : List (Nat × Option StatusJson)) (st : MonitorState),
    (runLoop st polls).2 ≤ 1 := by
  intro polls
  induction polls with
  | nil => intro st; simp [runLoop]
  | cons p rest ih =>
    intro st
    unfold runLoop
    rcases runStep_shape st p.1 p.2 with ⟨h2, _, _⟩ | ⟨h2, _⟩
    · rw [h2]; simp
    · rw [h2]; simpa using ih (runStep st p.1 p.2).1

lemma runLoop_latched : ∀ (polls : List (Nat × Option StatusJson)) (st : MonitorState),
    st.shutdown_initiated = true → (runLoop st polls).2 = 0 := by
  intro polls
  induction polls with
  | nil => intro st _; rfl
  | cons p rest ih =>
    intro st hst
    unfold runLoop
    rcases runStep_shape st p.1 p.2 with ⟨_, _, hfalse⟩ | ⟨h2, hpres⟩
    · rw [hst] at hfalse; cases hfalse
    · rw [h2]
      simpa using ih (runStep st p.1 p.2).1 (by rw [hpres, hst])

/-- Claim C4: the countdown runs for exactly `SHUTDOWN_DELAY` one-second
ticks and its last observable action is the shutdown command, for every
possible outcome of the fire-and-forget notifications; and the monitor loop
is single-shot: no run starts more than one countdown, and a monitor whose
`shutdown_initiated` latch is set never starts one, whatever status records
follow.  (The countdown takes no status-record input at all — its type shows
the ticking is independent of any intervening reads.) -/
theorem c4_countdown_exact_and_single_shot :
    (∀ (initWallOk initDeskOk finalOk : Bool) (notifyOk : Nat → Bool),
        (show_critical_shutdown_countdown initWallOk initDeskOk finalOk notifyOk).count
            Action.tick = SHUTDOWN_DELAY ∧
          (show_critical_shutdown_countdown initWallOk initDeskOk finalOk
              notifyOk).getLast? = some Action.shutdownCmd) ∧
      (∀ (st : MonitorState) (polls : List (Nat × Option StatusJson)),
        (runLoop st polls).2 ≤ 1) ∧
      (∀ (st : MonitorState) (polls : List (Nat × Option StatusJson)),
        st.shutdown_initiated = true → (runLoop st polls).2 = 0) := by
  refine ⟨?_, fun st polls => runLoop_le_one polls st,
    fun st polls h => runLoop_latched polls st h⟩
  intro initWallOk initDeskOk finalOk notifyOk
  constructor
  · unfold show_critical_shutdown_countdown
    simp [List.count_append, List.count_cons, countdownLoop_count_tick]
  · unfold show_critical_shutdown_countdown
    exact List.getLast?_concat _

/-- Witness for C4: a latched monitor processing a critically low record
starts no countdown. -/
theorem c4_countdown_exact_and_single_shot_witness :
    (runLoop { shutdown_initiated := true, last_warning_time := 0, warning_shown := false }
        [(0, some lowVoltageRecord)]).2 = 0 :=
  c4_countdown_exact_and_single_shot.2.2
    { shutdown_initiated := true, last_warning_time := 0, warning_shown := false }
    [(0, some lowVoltageRecord)] rfl

/-! ## Claim C5: reset cooldown -/

lemma reset_max_chip_blocked (now : Nat) (ok : Bool) (st : BMState)
    (h : now - st.last_reset < RESET_COOLDOWN) :
    reset_max_chip now ok st = ((false, "Reset cooldown active"), st) := by
  unfold reset_max_chip
  rw [if_pos h]

lemma reset_max_chip_success (now : Nat) (st : BMState)
    (h : ¬(now - st.last_reset < RESET_COOLDOWN)) :
    reset_max_chip now true st =
      ((true, "MAX chip reset successful"),
        { st with last_reset := now, bad_reading_count := 0 }) := by
  unfold reset_max_chip
  rw [if_neg h, if_pos rfl]

lemma reset_max_chip_failed (now : Nat) (st : BMState)
    (h : ¬(now - st.last_reset < RESET_COOLDOWN)) :
    reset_max_chip now false st = ((false, "Reset failed"), st) := by
  unfold reset_max_chip
  rw [if_neg h, if_neg (by decide)]

/-- Along any call trace, the times of successful resets form a chain in
which each time is at least `RESET_COOLDOWN` past the previous one (the
state's `last_reset` heading the chain). -/
lemma resetTrace_chain : ∀ (calls : List (Nat × Bool)) (st : BMState),
    List.Chain (fun a b => a + RESET_COOLDOWN ≤ b) st.last_reset
      (resetTrace st calls).2 := by
  intro calls
  induction calls with
  | nil => intro st; exact List.Chain.nil
  | cons call rest ih =>
    intro st
    unfold resetTrace
    by_cases hcool : call.1 - st.last_reset < RESET_COOLDOWN
    · rw [reset_max_chip_blocked call.1 call.2 st hcool]
      exact ih st
    · cases hok : call.2 with
      | true =>
        rw [hok] at *
        rw [reset_max_chip_success call.1 st hcool]
        simp only [if_pos rfl]
        exact List.Chain.cons
          (by
            simp only [RESET_COOLDOWN] at hcool ⊢
            omega)
          (ih { st with last_reset := call.1, bad_reading_count := 0 })
      | false =>
        rw [hok] at *
        rw [reset_max_chip_failed call.1 st hcool]
        simp only [Prod.fst]
        exact ih st

lemma resetTrace_sub_calls : ∀ (calls : List (Nat × Bool)) (st : BMState) (x : Nat),
    x ∈ (resetTrace st calls).2 → x ∈ calls.map Prod.fst := by
  intro calls
  induction calls with
  | nil => intro st x hx; cases hx
  | cons call rest ih =>
    intro st x hx
    unfold resetTrace at hx
    by_cases hres : (reset_max_chip call.1 call.2 st).1.1 = true
    · rw [if_pos hres] at hx
      rcases List.mem_cons.mp hx with rfl | hx
      · exact List.mem_cons_self _ _
      · exact List.mem_cons_of_mem _ (ih _ x hx)
    · rw [if_neg hres] at hx
      exact List.mem_cons_of_mem _ (ih _ x hx)

lemma chainLower : ∀ (l : List Nat) (a : Nat),
    List.Chain (fun x y => x + RESET_COOLDOWN ≤ y) a l →
    ∀ x ∈ l, a + RESET_COOLDOWN ≤ x := by
  intro l
  induction l with
  | nil => intro a _ x hx; cases hx
  | cons b t ih =>
    intro a hch x hx
    rw [List.chain_cons] at hch
    rcases List.mem_cons.mp hx with rfl | hx
    · exact hch.1
    · have := ih b hch.2 x hx
      simp only [RESET_COOLDOWN] at *
      omega

/-- A `RESET_COOLDOWN`-separated chain whose elements all lie in a window
of length `D` has fewer than `D / RESET_COOLDOWN + 1` elements. -/
lemma chainWindowBound : ∀ (l : List Nat) (a lo D : Nat),
    List.Chain (fun x y => x + RESET_COOLDOWN ≤ y) a l →
    (∀ x ∈ l, lo ≤ x ∧ x < lo + D) →
    RESET_COOLDOWN * l.length < D + RESET_COOLDOWN := by
  intro l
  induction l with
  | nil =>
    intro a lo D _ _
    simp only [List.length_nil, Nat.mul_zero, RESET_COOLDOWN]
    omega
  | cons b t ih =>
    intro a lo D hch hw
    rw [List.chain_cons] at hch
    have hb := hw b (List.mem_cons_self b t)
    have hwt : ∀ x ∈ t, b + RESET_COOLDOWN ≤ x ∧
        x < (b + RESET_COOLDOWN) + (lo + D - (b + RESET_COOLDOWN)) := by
      intro x hx
      have h1 := chainLower t b hch.2 x hx
      have h2 := (hw x (List.mem_cons_of_mem b hx)).2
      constructor
      · exact h1
      · omega
    have := ih b (b + RESET_COOLDOWN) (lo + D - (b + RESET_COOLDOWN)) hch.2 hwt
    simp only [List.length_cons, RESET_COOLDOWN] at *
    omega

/-- Claim C5: `reset_max_chip` never performs the chip reset twice within
`RESET_COOLDOWN` seconds — along any trace of calls, successful reset times
are pairwise at least `RESET_COOLDOWN` apart, and any trace whose call
times lie within a window of length `D` contains at most
`⌈D / RESET_COOLDOWN⌉` successful resets; moreover the cooldown timestamp
`last_reset` (and the whole persisted state) is left unchanged by a blocked
or failed attempt, and is set to the call time exactly on a confirmed
successful write. -/
theorem c5_reset_cooldown :
    (∀ (st : BMState) (calls : List (Nat × Bool)),
        List.Chain (fun a b => a + RESET_COOLDOWN ≤ b) st.last_reset
          (resetTrace st calls).2) ∧
      (∀ (st : BMState) (calls : List (Nat × Bool)) (lo D : Nat),
        (∀ c ∈ calls, lo ≤ c.1 ∧ c.1 < lo + D) →
        (resetTrace st calls).2.length ≤ ceilDiv D RESET_COOLDOWN) ∧
      (∀ (now : Nat) (ok : Bool) (st : BMState),
        (reset_max_chip now ok st).1.1 = false → (reset_max_chip now ok st).2 = st) ∧
      (∀ (now : Nat) (ok : Bool) (st : BMState),
        (reset_max_chip now ok st).1.1 = true →
          (reset_max_chip now ok st).2.last_reset = now ∧
            st.last_reset + RESET_COOLDOWN ≤ now) := by
  refine ⟨fun st calls => resetTrace_chain calls st, ?_, ?_, ?_⟩
  · intro st calls lo D hw
    have hchain := resetTrace_chain calls st
    have hwin : ∀ x ∈ (resetTrace st calls).2, lo ≤ x ∧ x < lo + D := by
      intro x hx
      rcases List.mem_map.mp (resetTrace_sub_calls calls st x hx) with ⟨c, hc, rfl⟩
      exact hw c hc
    have hbound := chainWindowBound (resetTrace st calls).2 st.last_reset lo D hchain hwin
    unfold ceilDiv
    rw [Nat.le_div_iff_mul_le (by norm_num [RESET_COOLDOWN])]
    simp only [RESET_COOLDOWN] at *
    omega
  · intro now ok st hfail
    unfold reset_max_chip at *
    by_cases hcool : now - st.last_reset < RESET_COOLDOWN
    · rw [if_pos hcool]
    · rw [if_neg hcool] at *
      cases ok with
      | true => rw [if_pos rfl] at hfail; cases hfail
      | false => rw [if_neg (by decide)]
  · intro now ok st hsucc
    unfold reset_max_chip at *
    by_cases hcool : now - st.last_reset < RESET_COOLDOWN
    · rw [if_pos hcool] at hsucc; cases hsucc
    · rw [if_neg hcool] at *
      cases ok with
      | true =>
        rw [if_pos rfl]
        refine ⟨rfl, ?_⟩
        simp only [RESET_COOLDOWN] at *
        omega
      | false => rw [if_neg (by decide)] at hsucc; cases hsucc

/-- Witness for C5: a concrete trace of three calls inside a 301-second
window yields two successful resets, within the ceiling bound. -/
theorem c5_reset_cooldown_witness :
    (resetTrace { last_reset := 0, bad_reading_count := 0, last_voltage := 0 }
        [(400, true), (500, true), (700, true)]).2.length ≤ ceilDiv 301 RESET_COOLDOWN :=
  c5_reset_cooldown.2.1
    { last_reset := 0, bad_reading_count := 0, last_voltage := 0 }
    [(400, true), (500, true), (700, true)] 400 301
    (by
      intro c hc
      fin_cases hc <;> constructor <;> norm_num)

/-! ## Claim C6: no reset inside a charging window (spec-modelled) -/

lemma handleReading_reset_not_in_window (b w : Bool) (n : Nat)
    (st : SpecRecoveryState) : (handleReading b w n st).2 = true → w = false := by
  unfold handleReading
  cases b with
  | false =>
    rw [if_pos rfl]
    intro h
    cases h
  | true =>
    rw [if_neg (by decide)]
    cases w with
    | true =>
      rw [if_pos rfl]
      intro h
      cases h
    | false => intro _; rfl

/-- Claim C6 (spec-modelled): the recovery controller never issues a chip
reset while the charging window is active — a bad reading inside a window
leaves the state (including `badReadingCount`) unchanged and issues no
reset, and along any input sequence every step at which a reset is issued
has `inWindow = false`. -/
theorem c6_no_reset_in_window :
    (∀ (now : Nat) (st : SpecRecoveryState),
        handleReading true true now st = (st, false)) ∧
      (∀ (st : SpecRecoveryState) (steps : List (Bool × Bool × Nat)),
        ∀ x ∈ (runRecovery st steps).2, x.2.1 = false) := by
  constructor
  · intro now st
    unfold handleReading
    rw [if_neg (by decide), if_pos rfl]
  · intro st steps
    induction steps generalizing st with
    | nil => intro x hx; cases hx
    | cons step rest ih =>
      intro x hx
      unfold runRecovery at hx
      by_cases hres : (handleReading step.1 step.2.1 step.2.2 st).2 = true
      · rw [if_pos hres] at hx
        rcases List.mem_cons.mp hx with rfl | hx
        · exact handleReading_reset_not_in_window x.1 x.2.1 x.2.2 st hres
        · exact ih _ x hx
      · rw [if_neg hres] at hx
        exact ih _ x hx

/-- Witness for C6: a trace with one bad out-of-window reading at the
threshold issues its reset at a step with `inWindow = false`. -/
theorem c6_no_reset_in_window_witness :
    ((true, false, 400) : Bool × Bool × Nat).2.1 = false :=
  c6_no_reset_in_window.2 { badReadingCount := 0, lastResetAt := 0 }
    [(true, false, 400)] (true, false, 400)
    (by
      unfold runRecovery handleReading runRecovery
      norm_num [BAD_READING_THRESHOLD, RESET_COOLDOWN])

/-! ## Claim C7: the 3.15 V / 50 % scenario -/

/-- Counterexample for C7: at exactly 50 % user percent and 3.15 V the
validator does not flag the reading — the cross-check is the strict
`user_percent > 50`, and `50 > 50` is false (raw percent 57.5 is the value
consistent with 50 % user; no prior voltage). -/
theorem c7_counterexample :
    is_bad_reading 0 3.15 57.5 50 = (false, Reason.ok) := by
  norm_num [is_bad_reading]

/-- Claim C7 (amended): for voltage 3.15 V and a user percent strictly
above 50 % (here 50.1 %), `is_bad_reading` flags the reading bad with the
voltage-too-low-for-percentage reason (whatever the persisted
`last_voltage`), and — with `bad_reading_count` reaching the threshold and
the cooldown expired — `read_battery_with_validation` issues the chip reset
and publishes `reset_info` with `reset_performed = true`.  At exactly 50 %
the reading is not flagged at all. -/
theorem c7_low_voltage_reset (now : Nat) (nowStr : String) (st : BMState)
    (read2 : ℚ × ℚ × ℚ) (hcool : st.last_reset + RESET_COOLDOWN ≤ now) :
    is_bad_reading st.last_voltage 3.15 57.6 50.1 =
        (true, Reason.voltageTooLowForPercentage 3.15 50.1) ∧
      (read_battery_with_validation now nowStr (3.15, 57.6, 50.1) read2 true
            st).1.reset_info =
        some { reset_performed := some true,
               reason := Reason.voltageTooLowForPercentage 3.15 50.1,
               message := some "MAX chip reset successful", timestamp := now } := by
  have hbad : is_bad_reading st.last_voltage 3.15 57.6 50.1 =
      (true, Reason.voltageTooLowForPercentage 3.15 50.1) := by
    norm_num [is_bad_reading]
  have hrm : reset_max_chip now true { st with bad_reading_count := st.bad_reading_count + 1 } =
      ((true, "MAX chip reset successful"),
        { last_reset := now, bad_reading_count := 0, last_voltage := st.last_voltage }) := by
    rw [reset_max_chip_success now _ (by
      show ¬(now - st.last_reset < RESET_COOLDOWN)
      simp only [RESET_COOLDOWN] at hcool ⊢
      omega)]
  refine ⟨hbad, ?_⟩
  simp only [read_battery_with_validation]
  rw [hbad, hrm]
  simp [BAD_READING_THRESHOLD, Nat.le_add_left]

/-- Witness for the amended C7, at a concrete time and fresh persisted
state. -/
theorem c7_low_voltage_reset_witness :
    (read_battery_with_validation 1000 "" (3.15, 57.6, 50.1) (4, 80, 76.4) true
          { last_reset := 0, bad_reading_count := 0, last_voltage := 0 }).1.reset_info =
      some { reset_performed := some true,
             reason := Reason.voltageTooLowForPercentage 3.15 50.1,
             message := some "MAX chip reset successful", timestamp := 1000 } :=
  (c7_low_voltage_reset 1000 ""
      { last_reset := 0, bad_reading_count := 0, last_voltage := 0 }
      (4, 80, 76.4) (by norm_num [RESET_COOLDOWN])).2

/-! ## Claims C8, C10: raw decoding and the unreachable bounds check -/

lemma user_percent_bounds (vcell_raw soc_raw : Nat) :
    0 ≤ (read_raw_data vcell_raw soc_raw).2.2 ∧
      (read_raw_data vcell_raw soc_raw).2.2 ≤ 100 := by
  unfold read_raw_data
  exact ⟨le_min (by norm_num) (le_max_left 0 _), min_le_left _ _⟩

/-- Claim C8: `read_raw_data` computes raw percent as the high byte of the
byte-swapped SOC register plus the low byte over 256, computes user percent
as the affine remap `(raw − 15) × 1.176470588` clamped to `[0, 100]`, and
therefore `0 ≤ user percent ≤ 100` for every possible pair of register
words. -/
theorem c8_decode_and_clamp (vcell_raw soc_raw : Nat) :
    (read_raw_data vcell_raw soc_raw).2.1 =
        ((((soc_raw &&& 0xFF) <<< 8 ||| (soc_raw >>> 8)) >>> 8 : Nat) : ℚ) +
          ((((soc_raw &&& 0xFF) <<< 8 ||| (soc_raw >>> 8)) &&& 0xFF : Nat) : ℚ) / 256 ∧
      (read_raw_data vcell_raw soc_raw).2.2 =
        min 100 (max 0 (((read_raw_data vcell_raw soc_raw).2.1 - 15) * 1.176470588)) ∧
      0 ≤ (read_raw_data vcell_raw soc_raw).2.2 ∧
      (read_raw_data vcell_raw soc_raw).2.2 ≤ 100 :=
  ⟨rfl, rfl, (user_percent_bounds vcell_raw soc_raw).1,
    (user_percent_bounds vcell_raw soc_raw).2⟩

/-- Claim C10: for readings produced by `read_raw_data`, the
user-percentage out-of-bounds branch of `is_bad_reading` is unreachable:
the clamped user percent always lies within `[-5, 105]`, so the verdict is
never the `userPercentageOutOfBounds` reason, whatever the persisted
`last_voltage`. -/
theorem c10_user_oob_branch_unreachable (last_voltage : ℚ) (vcell_raw soc_raw : Nat) :
    -5 ≤ (read_raw_data vcell_raw soc_raw).2.2 ∧
      (read_raw_data vcell_raw soc_raw).2.2 ≤ 105 ∧
      Reason.isUserOOB
          (is_bad_reading last_voltage (read_raw_data vcell_raw soc_raw).1
            (read_raw_data vcell_raw soc_raw).2.1
            (read_raw_data vcell_raw soc_raw).2.2).2 = false := by
  obtain ⟨h0, h100⟩ := user_percent_bounds vcell_raw soc_raw
  refine ⟨by linarith, by linarith, ?_⟩
  unfold is_bad_reading
  split_ifs with h1 h2 h3 h4 h5 h6 h7 h8
  all_goals first
    | rfl
    | (exfalso
       rcases h8 with h | h <;> linarith)

/-! ## Claim C9: status record round trip -/

/-- Claim C9: publishing a good reading with `create_status` and
`write_status` and reading it back with the monitor's `get_battery_data`
returns exactly the published values — the rounded voltage and percents and
the timestamp — with no error and nothing substituted for the
writer-omitted optional fields. -/
theorem c9_status_round_trip (now : Nat) (nowStr : String) (v r u : ℚ) :
    get_battery_data (write_status (create_status now nowStr v r u)) =
      some { voltage := pyround v 3, percent_user := pyround u 1,
             percent_raw := pyround r 1, timestamp := now, error := none } := by
  simp [write_status, get_battery_data, create_status]

end Deck
